import Mathlib

/-!
Verification development for the scheduled-prompt execution engine
(`backend/open_webui/utils/scheduler.py` and
`backend/open_webui/models/scheduled_prompts.py`).

The Python source is shallowly embedded: pure helpers become Lean
functions, the repair pipeline of `execute_scheduled_prompt` becomes a
deterministic function of the job configuration and a model oracle
(one response per issued request), and the SQLAlchemy row mutations
become functions on an explicit row structure.  The clock reads
(`time.time()`, `datetime.now`) are passed as explicit arguments.
-/

namespace Scheduler

/-! ## Python string primitives

Models of the `str` operations the scheduler uses: `.lower()`,
`.strip()`, substring containment (`in`), `.startswith`, `.endswith`,
`"sep".join`, and the specific `re` operations appearing in
`sanitize_tool_chatter_text` and the UUID extraction helpers. -/

/-- Python `\s` / `str.strip()` whitespace (ASCII range). -/
def pySpace (c : Char) : Bool :=
  c = ' ' || c = '\t' || c = '\n' || c = '\r' || c = '\x0b' || c = '\x0c'

/-- Regex word character (`\w`), used for `\b` word boundaries. -/
def isWordChar (c : Char) : Bool :=
  c.isAlphanum || c = '_'

/-- Python `str.lower()` (ASCII case mapping). -/
def pyLower (s : String) : String :=
  ⟨s.data.map Char.toLower⟩

def listStartsWith : List Char → List Char → Bool
  | _, [] => true
  | [], _ :: _ => false
  | c :: cs, d :: ds => c = d && listStartsWith cs ds

/-- Substring containment on character lists (Python `needle in hay`). -/
def listContains (hay needle : List Char) : Bool :=
  match hay with
  | [] => listStartsWith [] needle
  | _ :: cs => listStartsWith hay needle || listContains cs needle

/-- Python `needle in hay` for strings. -/
def strContains (hay needle : String) : Bool :=
  listContains hay.data needle.data

/-- Python `hay.endswith needle` for strings. -/
def strEndsWith (hay needle : String) : Bool :=
  listStartsWith hay.data.reverse needle.data.reverse

/-- Python `hay.startswith needle` for strings. -/
def strStartsWith (hay needle : String) : Bool :=
  listStartsWith hay.data needle.data

/-- Python `str.strip()` (no arguments: strips whitespace). -/
def pyStripList (l : List Char) : List Char :=
  ((l.dropWhile pySpace).reverse.dropWhile pySpace).reverse

def pyStrip (s : String) : String :=
  ⟨pyStripList s.data⟩

/-- Python `str.strip(chars)` for a single character set. -/
def pyStripChar (ch : Char) (s : String) : String :=
  ⟨((s.data.dropWhile (· = ch)).reverse.dropWhile (· = ch)).reverse⟩

/-- Python `str.rstrip(chars)` for a single character set. -/
def pyRstripChar (ch : Char) (s : String) : String :=
  ⟨(s.data.reverse.dropWhile (· = ch)).reverse⟩

/-- Python `a or b` for an optional string `a` (falsy when absent or empty). -/
def pyStrOr (a : Option String) (b : String) : String :=
  match a with
  | some s => if s = "" then b else s
  | none => b

/-- Truthiness of an optional list (Python `if tool_ids:`). -/
def optListTruthy {α : Type} (o : Option (List α)) : Bool :=
  match o with
  | some (_ :: _) => true
  | _ => false

/-- Python `", ".join l`. -/
def joinSep (sep : String) : List String → String
  | [] => ""
  | [x] => x
  | x :: y :: rest => x ++ sep ++ joinSep sep (y :: rest)

/-! ## Model of `re.split(r"\n{2,}", content)`

Splits on maximal runs of two or more newline characters; a single
newline stays inside its block. -/

def splitBlankGo : Nat → List Char → List Char → List (List Char)
  | 0, acc, l => [acc.reverse ++ l]
  | _ + 1, acc, [] => [acc.reverse]
  | fuel + 1, acc, '\n' :: '\n' :: rest =>
      acc.reverse :: splitBlankGo fuel [] (rest.dropWhile (· = '\n'))
  | fuel + 1, acc, c :: rest => splitBlankGo fuel (c :: acc) rest

def splitBlankLines (s : String) : List String :=
  (splitBlankGo (s.data.length + 1) [] s.data).map (fun l => ⟨l⟩)

/-! ## Model of `re.sub(r"\s{2,}", " ", s)`

Each maximal run of two or more whitespace characters becomes a single
space; single whitespace characters are left as they are. -/

def collapseWsGo : Nat → List Char → List Char
  | 0, l => l
  | _ + 1, [] => []
  | fuel + 1, c :: cs =>
      if pySpace c then
        match cs with
        | d :: _ =>
          if pySpace d then ' ' :: collapseWsGo fuel (cs.dropWhile pySpace)
          else c :: collapseWsGo fuel cs
        | [] => [c]
      else c :: collapseWsGo fuel cs

def collapseWs (s : String) : String :=
  ⟨collapseWsGo (s.data.length + 1) s.data⟩

/-! ## Model of the tool-chatter token regex

`re.sub(r"(?:\bto=[^\s]+(?:\s+commentary)?(?:\s+[^\s]{1,30})?\s*){2,}", "",
content, flags=re.IGNORECASE)` from `sanitize_tool_chatter_text`.

The pattern is hand-compiled into a backtracking matcher.  A body
iteration is `\bto=` (case-insensitive), a greedy non-space token, an
optional `\s+commentary`, an optional `\s+[^\s]{1,30}` short token and
a greedy `\s*`; the group must repeat at least twice.  Alternatives are
explored in Python's backtracking order (greedy components longest
first, optional groups present before absent, more loop iterations
before stopping), and the first success is taken, as `re` does. -/

/-- Maximal non-whitespace span (`[^\s]+` greedy). -/
def nonSpaceSpan (l : List Char) : List Char × List Char :=
  (l.takeWhile (fun c => !pySpace c), l.dropWhile (fun c => !pySpace c))

/-- Maximal whitespace span (`\s+` / `\s*` greedy). -/
def spaceSpan (l : List Char) : List Char × List Char :=
  (l.takeWhile pySpace, l.dropWhile pySpace)

/-- Boundary check: `\b` immediately before a word character: previous char absent or non-word. -/
def boundaryBefore (prev : Option Char) : Bool :=
  match prev with
  | none => true
  | some c => !isWordChar c

/-- Consume the literal `to=` case-insensitively. -/
def eatToEq : List Char → Option (List Char)
  | t :: o :: e :: rest =>
      if t.toLower = 't' && o.toLower = 'o' && e = '=' then some rest else none
  | _ => none

/-- Consume the literal `commentary` case-insensitively. -/
def eatCommentary (l : List Char) : Option (List Char) :=
  let w := "commentary".data
  if listStartsWith (l.map Char.toLower) w then some (l.drop w.length) else none

/-- A matcher state: the character just before the position, and the rest. -/
abbrev MatchPos := Char × List Char

/-- Alternatives for `(?:\s+commentary)?`: with the group, then without. -/
def cOptions (p : MatchPos) : List MatchPos :=
  (match spaceSpan p.2 with
   | ([], _) => []
   | (ws, r2) =>
     match eatCommentary r2 with
     | some r3 => [((ws ++ r2.take 10).getLastD p.1, r3)]
     | none => []) ++ [p]

/-- Alternatives for `(?:\s+[^\s]{1,30})?`: token lengths longest first, then absent. -/
def sOptions (p : MatchPos) : List MatchPos :=
  (match spaceSpan p.2 with
   | ([], _) => []
   | (ws, r2) =>
     let (tok, _) := nonSpaceSpan r2
     let m := min 30 tok.length
     (List.range m).map (fun i =>
       let k := m - i
       ((ws ++ r2.take k).getLastD p.1, r2.drop k))) ++ [p]

/-- Alternatives for the trailing `\s*`: longest first down to empty. -/
def wsOptions (p : MatchPos) : List MatchPos :=
  let (ws, _) := spaceSpan p.2
  (List.range (ws.length + 1)).map (fun i =>
    let k := ws.length - i
    if k = 0 then p else ((p.2.take k).getLastD p.1, p.2.drop k))

/-- The ordered continuation states after one body iteration of the token
regex, starting just before a candidate `to=`. -/
def bodyAlts (prev : Option Char) (l : List Char) : List MatchPos :=
  if !boundaryBefore prev then []
  else
    match eatToEq l with
    | none => []
    | some r0 =>
      let (tok, _) := nonSpaceSpan r0
      if tok.length = 0 then []
      else
        ((List.range tok.length).map (fun i =>
            let k := tok.length - i
            ((r0.take k).getLastD '=', r0.drop k))).flatMap
          (fun p1 => (cOptions p1).flatMap
            (fun p2 => (sOptions p2).flatMap
              (fun p3 => wsOptions p3)))

/-- First success of `f` over a list, in order. -/
def firstSome {α β : Type} : List α → (α → Option β) → Option β
  | [], _ => none
  | a :: as, f =>
    match f a with
    | some b => some b
    | none => firstSome as f

/-- Backtracking search for the `{2,}` loop: prefer another iteration;
stop (successfully) once at least two iterations matched.  Returns the
rest of the input at the match end. -/
def runTokenMatch : Nat → Nat → Option Char → List Char → Option (List Char)
  | 0, _, _, _ => none
  | fuel + 1, count, prev, l =>
    match firstSome (bodyAlts prev l)
        (fun p => runTokenMatch fuel (count + 1) (some p.1) p.2) with
    | some r => some r
    | none => if 2 ≤ count then some l else none

/-- Left-to-right scan of `re.sub(tokenRegex, "", s)`: at each position try
a match; on success drop the matched characters and continue after them
(non-overlapping), otherwise keep the character and advance by one. -/
def tokenSubGo : Nat → Option Char → List Char → List Char
  | 0, _, l => l
  | _ + 1, _, [] => []
  | fuel + 1, prev, c :: cs =>
    match runTokenMatch ((c :: cs).length + 1) 0 prev (c :: cs) with
    | some rest =>
      if rest.length < (c :: cs).length then
        let consumed := (c :: cs).take ((c :: cs).length - rest.length)
        tokenSubGo fuel (some (consumed.getLastD c)) rest
      else c :: tokenSubGo fuel (some c) cs
    | none => c :: tokenSubGo fuel (some c) cs

def tokenSub (s : String) : String :=
  ⟨tokenSubGo (s.data.length + 1) none s.data⟩

/-! ## `sanitize_tool_chatter_text` (scheduler.py lines 253-280) -/

/-- The sanitizer's guard (line 260): the content contains `to=` and
mentions some configured tool, case-insensitively. -/
def chatterGuard (content : String) (action_tools : List String) : Bool :=
  strContains (pyLower content) "to="
    && (action_tools.map pyLower).any (fun t => strContains (pyLower content) t)

/-- Whether a block is skipped by the block-selection loop
(lines 265-270): it still looks like chatter or mentions the
chatter phrases. -/
def isChatterBlock (tool_mentions : List String) (b : String) : Bool :=
  let bl := pyLower b
  (strContains bl "to=" && tool_mentions.any (fun t => strContains bl t))
    || strContains bl "need proper json"
    || strContains bl "commentary"

/-- The blank-line-separated, stripped, non-empty blocks (line 263). -/
def chatterBlocks (content : String) : List String :=
  ((splitBlankLines content).map pyStrip).filter (fun b => b ≠ "")

/-- Embeds `sanitize_tool_chatter_text(content, action_tools)`: when the
content contains `to=` and mentions a configured tool, either return the
last blank-line-separated block that does not look like chatter, or
collapse runs of `to=<tool>` tokens and normalize whitespace, falling
back to the original content when the cleaned result is empty. -/
def sanitize_tool_chatter_text (content : String) (action_tools : List String) : String :=
  if pyStrip content = "" then content
  else if !chatterGuard content action_tools then content
  else
    match
      (if 1 < (chatterBlocks content).length then
        (chatterBlocks content).reverse.find?
          (fun b => !isChatterBlock (action_tools.map pyLower) b)
      else none) with
    | some b => b
    | none =>
      if pyStrip (collapseWs (tokenSub content)) = "" then content
      else pyStrip (collapseWs (tokenSub content))

/-! ## JSON values and a model of `json.loads`

The raw tool-JSON detector in `execute_scheduled_prompt` parses the
trimmed assistant content with Python's standard `json.loads` and then
inspects the resulting dict.  We embed JSON values as an inductive type
(numbers keep their lexeme, which is all Python truthiness needs) and
model the parser, including the `NaN`/`Infinity` extensions `json.loads`
accepts by default.  Duplicate object keys keep the last occurrence, as
Python dict construction does. -/

inductive Json where
  | null : Json
  | bool : Bool → Json
  | num : String → Json
  | str : String → Json
  | arr : List Json → Json
  | obj : List (String × Json) → Json
deriving Repr

/-- JSON structural whitespace accepted by `json.loads`. -/
def jsonWs (c : Char) : Bool :=
  c = ' ' || c = '\t' || c = '\n' || c = '\r'

def skipWsL (l : List Char) : List Char :=
  l.dropWhile jsonWs

def isHexChar (c : Char) : Bool :=
  c.isDigit || ('a' ≤ c.toLower && c.toLower ≤ 'f')

def hexVal (c : Char) : Nat :=
  if c.isDigit then c.toNat - '0'.toNat else c.toLower.toNat - 'a'.toNat + 10

/-- Parse the body of a JSON string literal after the opening quote. -/
def parseStrBody : Nat → List Char → Option (List Char × List Char)
  | 0, _ => none
  | _ + 1, [] => none
  | fuel + 1, c :: rest =>
    if c = '"' then some ([], rest)
    else if c = '\\' then
      match rest with
      | [] => none
      | e :: rest2 =>
        let simpleEsc : Option Char :=
          if e = '"' then some '"'
          else if e = '\\' then some '\\'
          else if e = '/' then some '/'
          else if e = 'b' then some '\x08'
          else if e = 'f' then some '\x0c'
          else if e = 'n' then some '\n'
          else if e = 'r' then some '\r'
          else if e = 't' then some '\t'
          else none
        match simpleEsc with
        | some d =>
          match parseStrBody fuel rest2 with
          | some (tail, r) => some (d :: tail, r)
          | none => none
        | none =>
          if e = 'u' then
            match rest2 with
            | h1 :: h2 :: h3 :: h4 :: rest3 =>
              if isHexChar h1 && isHexChar h2 && isHexChar h3 && isHexChar h4 then
                let n := ((hexVal h1 * 16 + hexVal h2) * 16 + hexVal h3) * 16 + hexVal h4
                let d := if h : n.isValidChar then Char.ofNatAux n h else '�'
                match parseStrBody fuel rest3 with
                | some (tail, r) => some (d :: tail, r)
                | none => none
              else none
            | _ => none
          else none
    else
      match parseStrBody fuel rest with
      | some (tail, r) => some (c :: tail, r)
      | none => none

/-- Lex a JSON number: `-?(0|[1-9][0-9]*)(\.[0-9]+)?([eE][-+]?[0-9]+)?`. -/
def lexNumber (l : List Char) : Option (List Char × List Char) :=
  let (sign, l1) :=
    match l with
    | '-' :: rest => (['-'], rest)
    | _ => (([] : List Char), l)
  match l1 with
  | [] => none
  | c :: _ =>
    if !c.isDigit then none
    else
      let intPart := l1.takeWhile Char.isDigit
      let afterInt := l1.dropWhile Char.isDigit
      if intPart.length > 1 && intPart.headD '0' = '0' then none
      else
        let (fracPart, afterFrac) :=
          match afterInt with
          | '.' :: rest =>
            let ds := rest.takeWhile Char.isDigit
            if ds = [] then ([], afterInt)
            else ('.' :: ds, rest.dropWhile Char.isDigit)
          | _ => ([], afterInt)
        if afterInt ≠ afterFrac || fracPart = [] then
          -- fraction handled (or absent); now the exponent
          let (expPart, afterExp) :=
            match afterFrac with
            | e :: rest =>
              if e = 'e' || e = 'E' then
                let (esign, rest2) :=
                  match rest with
                  | s :: r2 => if s = '+' || s = '-' then ([s], r2) else ([], rest)
                  | [] => ([], rest)
                let ds := rest2.takeWhile Char.isDigit
                if ds = [] then ([], afterFrac)
                else (e :: (esign ++ ds), rest2.dropWhile Char.isDigit)
              else ([], afterFrac)
            | [] => ([], afterFrac)
          some (sign ++ intPart ++ fracPart ++ expPart, afterExp)
        else none

mutual

/-- Model of `json.loads` value parsing. -/
def parseVal : Nat → List Char → Option (Json × List Char)
  | 0, _ => none
  | fuel + 1, l =>
    let l := skipWsL l
    match l with
    | [] => none
    | '\x7b' :: rest => parseObjBody fuel rest
    | '[' :: rest => parseArrBody fuel rest
    | '"' :: rest =>
      match parseStrBody (rest.length + 1) rest with
      | some (cs, r) => some (Json.str ⟨cs⟩, r)
      | none => none
    | 't' :: 'r' :: 'u' :: 'e' :: rest => some (Json.bool true, rest)
    | 'f' :: 'a' :: 'l' :: 's' :: 'e' :: rest => some (Json.bool false, rest)
    | 'n' :: 'u' :: 'l' :: 'l' :: rest => some (Json.null, rest)
    | 'N' :: 'a' :: 'N' :: rest => some (Json.num "NaN", rest)
    | 'I' :: 'n' :: 'f' :: 'i' :: 'n' :: 'i' :: 't' :: 'y' :: rest =>
      some (Json.num "Infinity", rest)
    | '-' :: 'I' :: 'n' :: 'f' :: 'i' :: 'n' :: 'i' :: 't' :: 'y' :: rest =>
      some (Json.num "-Infinity", rest)
    | _ =>
      match lexNumber l with
      | some (cs, r) => some (Json.num ⟨cs⟩, r)
      | none => none

/-- Members of a JSON object, after the opening brace. -/
def parseObjBody : Nat → List Char → Option (Json × List Char)
  | 0, _ => none
  | fuel + 1, l =>
    let l := skipWsL l
    match l with
    | '\x7d' :: rest => some (Json.obj [], rest)
    | _ => parseObjMembers fuel l []

def parseObjMembers : Nat → List Char → List (String × Json) → Option (Json × List Char)
  | 0, _, _ => none
  | fuel + 1, l, acc =>
    let l := skipWsL l
    match l with
    | '"' :: rest =>
      match parseStrBody (rest.length + 1) rest with
      | none => none
      | some (key, r1) =>
        match skipWsL r1 with
        | ':' :: r2 =>
          match parseVal fuel r2 with
          | none => none
          | some (v, r3) =>
            let acc := acc ++ [(⟨key⟩, v)]
            match skipWsL r3 with
            | ',' :: r4 => parseObjMembers fuel r4 acc
            | '\x7d' :: r4 => some (Json.obj acc, r4)
            | _ => none
        | _ => none
    | _ => none

/-- Elements of a JSON array, after the opening bracket. -/
def parseArrBody : Nat → List Char → Option (Json × List Char)
  | 0, _ => none
  | fuel + 1, l =>
    let l := skipWsL l
    match l with
    | ']' :: rest => some (Json.arr [], rest)
    | _ => parseArrItems fuel l []

def parseArrItems : Nat → List Char → List Json → Option (Json × List Char)
  | 0, _, _ => none
  | fuel + 1, l, acc =>
    match parseVal fuel l with
    | none => none
    | some (v, r1) =>
      let acc := acc ++ [v]
      match skipWsL r1 with
      | ',' :: r2 => parseArrItems fuel r2 acc
      | ']' :: r2 => some (Json.arr acc, r2)
      | _ => none

end

/-- Model of `json.loads s`: the whole input (modulo surrounding
whitespace) must parse as one value. -/
def parseJson (s : String) : Option Json :=
  match parseVal (4 * s.data.length + 4) s.data with
  | some (v, rest) => if skipWsL rest = [] then some v else none
  | none => none

/-- Whether the mantissa of a JSON number lexeme is zero
(`0`, `-0`, `0.00`, `0e5`, ...); `NaN` and the infinities are nonzero. -/
def numLexemeIsZero (lx : String) : Bool :=
  let mantissa := lx.data.takeWhile (fun c => c ≠ 'e' && c ≠ 'E')
  mantissa.all (fun c => !c.isDigit || c = '0')
  && mantissa.any Char.isDigit

/-- Python truthiness of a decoded JSON value. -/
def jsonTruthy : Json → Bool
  | Json.null => false
  | Json.bool b => b
  | Json.num lx => !numLexemeIsZero lx
  | Json.str s => s ≠ ""
  | Json.arr xs => !xs.isEmpty
  | Json.obj kvs => !kvs.isEmpty

/-- Python `dict.get key` on decoded object members (last duplicate wins). -/
def jsonGet (kvs : List (String × Json)) (key : String) : Option Json :=
  (kvs.reverse.find? (fun kv => kv.1 = key)).map (fun kv => kv.2)

/-- Whether `parsed.get(key)` is truthy (missing key gives `None`, falsy). -/
def jsonGetTruthy (kvs : List (String × Json)) (key : String) : Bool :=
  match jsonGet kvs key with
  | some v => jsonTruthy v
  | none => false

/-- Whether the object has the key at all (regardless of value). -/
def jsonHasKey (kvs : List (String × Json)) (key : String) : Bool :=
  kvs.any (fun kv => kv.1 = key)

/-! ## Citation sources and the notes-tool helpers
(scheduler.py lines 153-250) -/

/-- One metadata entry of a citation source; `note_id` models
`metadata_item.get("parameters", {}).get("note_id")`. -/
structure SourceMeta where
  note_id : Option String := none
deriving Repr, DecidableEq

/-- One citation source: `{source: {name}, document: [...], metadata: [...]}`. -/
structure SourceEntry where
  name : String := ""
  document : List String := []
  metadata : List SourceMeta := []
deriving Repr, DecidableEq

/-- Embeds `source_matches_note_function`: exact or `<tool id>/<name>`-suffixed
match, case-insensitive. -/
def source_matches_note_function (source_name function_name : String) : Bool :=
  let normalized := pyLower source_name
  let target := pyLower function_name
  normalized = target || strEndsWith normalized ("/" ++ target)

/-- Embeds `is_notes_tool_enabled`: some enabled tool id contains `notes_manager`
or `note_manager`, case-insensitive. -/
def is_notes_tool_enabled (action_tools : List String) : Bool :=
  action_tools.any (fun tool_id =>
    strContains (pyLower tool_id) "notes_manager"
    || strContains (pyLower tool_id) "note_manager")

/-- Take exactly `n` hex digits. -/
def takeHexRun : Nat → List Char → Option (List Char × List Char)
  | 0, l => some ([], l)
  | _ + 1, [] => none
  | n + 1, c :: cs =>
    if isHexChar c then
      match takeHexRun n cs with
      | some (a, r) => some (c :: a, r)
      | none => none
    else none

/-- Match the canonical 8-4-4-4-12 UUID shape at the head of the list. -/
def uuidShape (l : List Char) : Option (List Char × List Char) :=
  match takeHexRun 8 l with
  | none => none
  | some (a, r1) =>
    match r1 with
    | '-' :: r2 =>
      match takeHexRun 4 r2 with
      | none => none
      | some (b, r3) =>
        match r3 with
        | '-' :: r4 =>
          match takeHexRun 4 r4 with
          | none => none
          | some (c, r5) =>
            match r5 with
            | '-' :: r6 =>
              match takeHexRun 4 r6 with
              | none => none
              | some (d, r7) =>
                match r7 with
                | '-' :: r8 =>
                  match takeHexRun 12 r8 with
                  | none => none
                  | some (e, r9) =>
                    some (a ++ '-' :: b ++ '-' :: c ++ '-' :: d ++ '-' :: e, r9)
                | _ => none
            | _ => none
        | _ => none
    | _ => none

/-- Model of `re.findall` of the `\b`-delimited UUID pattern: scan left to right,
non-overlapping, requiring a word boundary on both sides. -/
def uuidScanGo : Nat → Option Char → List Char → List String
  | 0, _, _ => []
  | _ + 1, _, [] => []
  | fuel + 1, prev, c :: cs =>
    if boundaryBefore prev then
      match uuidShape (c :: cs) with
      | some (m, rest) =>
        if rest.headD ' ' |> (fun d => !isWordChar d) then
          (⟨m⟩ : String) :: uuidScanGo fuel (some (m.getLastD c)) rest
        else uuidScanGo fuel (some c) cs
      | none => uuidScanGo fuel (some c) cs
    else uuidScanGo fuel (some c) cs

def uuidFindAll (s : String) : List String :=
  uuidScanGo (s.data.length + 1) none s.data

/-- Embeds `extract_note_ids_from_list_sources`: UUIDs from the documents of
`list_my_notes`/`search_notes` sources, first-seen order, deduplicated. -/
def extract_note_ids_from_list_sources (sources : List SourceEntry) : List String :=
  sources.foldl (fun acc source =>
    if source_matches_note_function source.name "list_my_notes"
        || source_matches_note_function source.name "search_notes" then
      source.document.foldl (fun acc doc =>
        (uuidFindAll doc).foldl (fun acc m =>
          if acc.contains m then acc else acc ++ [m]) acc) acc
    else acc) []

/-- Embeds `extract_get_note_ids_and_failures`: note_id parameters used by
`get_note` sources, and whether any `get_note` document reports
`note not found` (case-insensitive). -/
def extract_get_note_ids_and_failures (sources : List SourceEntry) :
    List String × Bool :=
  sources.foldl (fun acc source =>
    if source_matches_note_function source.name "get_note" then
      let notFound := acc.2 || source.document.any (fun doc =>
        strContains (pyLower doc) "note not found")
      let ids := source.metadata.foldl (fun ids m =>
        match m.note_id with
        | some nid => if pyStrip nid ≠ "" then ids ++ [pyStrip nid] else ids
        | none => ids) acc.1
      (ids, notFound)
    else acc) ([], false)

/-! ## Requests, responses, and the repair pipeline
(scheduler.py lines 303-720)

The chat-completion endpoint is external; it is modeled as an oracle
mapping the index of the call and the request to a response.  Mutable
run state (`assistant_content`, `response_data`, and the sequence of
issued requests) becomes a `PipeSt` record threaded through the
stages.  Error paths (`_call_chat_completion` raising) abort the run
before anything is persisted, so the pipeline models the successful
runs, the only ones that persist an assistant message. -/

structure ChatMsg where
  role : String
  content : String
deriving Repr, DecidableEq

/-- A chat-completion request payload. `params = some v` models the dict
`{"function_calling": v}`, the only `params` content the scheduler ever
sends; `none` models the absence of the `params` key. -/
structure Request where
  model : String
  messages : List ChatMsg
  stream : Bool
  tool_ids : Option (List String) := none
  params : Option String := none
deriving Repr, DecidableEq

/-- The `choices[0].message` record; `tool_calls` entries are kept
abstract. -/
structure RespMessage where
  content : Option String := none
  reasoning_content : Option String := none
  tool_calls : List String := []
deriving Repr, DecidableEq

structure Response where
  message : RespMessage := {}
  sources : List SourceEntry := []
deriving Repr, DecidableEq

/-- The model backend: a response for the `n`-th issued request. -/
abbrev Oracle := Nat → Request → Response

/-- Mutable run state: current assistant content, current `response_data`,
and the requests issued so far. -/
structure PipeSt where
  content : String
  resp : Response
  log : List Request
deriving Repr

/-- Issue one chat-completion call and record it. -/
def issueCall (oracle : Oracle) (log : List Request) (req : Request) :
    Response × List Request :=
  (oracle log.length req, log ++ [req])

/-- Extraction `message.get("content") or message.get("reasoning_content") or ""`. -/
def extractAssistantContent (m : RespMessage) : String :=
  pyStrOr m.content (pyStrOr m.reasoning_content "")

/-- The literal fallback used when the model returns only tool calls. -/
def sentinelText : String :=
  "Scheduled prompt completed, but the model returned only tool calls and no final text."

/-- The S1 retry request (lines 458-461): the initial request with
`params["function_calling"] = "default"`. -/
def s1RetryRequest (payload : Request) : Request :=
  { payload with params := some "default" }

/-- Stage S1 (lines 449-481): when the assistant content is empty and the
response carries tool calls, retry once with `function_calling=default`
unless already in default mode, then substitute the sentinel if the
content is still empty. -/
def stageS1 (oracle : Oracle) (payload : Request) (mode : String) (st : PipeSt) : PipeSt :=
  if st.content = "" && !st.resp.message.tool_calls.isEmpty then
    if mode ≠ "default" then
      ⟨(if extractAssistantContent
            (issueCall oracle st.log (s1RetryRequest payload)).1.message = ""
         then sentinelText
         else extractAssistantContent
            (issueCall oracle st.log (s1RetryRequest payload)).1.message),
       (issueCall oracle st.log (s1RetryRequest payload)).1,
       (issueCall oracle st.log (s1RetryRequest payload)).2⟩
    else ⟨sentinelText, st.resp, st.log⟩
  else st

/-- The raw tool-JSON detector (lines 486-495): the trimmed content must
start with a brace, `json.loads` to a dict, and hold a truthy `tool` or
`tool_calls` member. -/
def detectRawToolRequest (content : String) : Bool :=
  strStartsWith (pyStrip content) "\x7b" &&
    (match parseJson (pyStrip content) with
     | some (Json.obj kvs) => jsonGetTruthy kvs "tool" || jsonGetTruthy kvs "tool_calls"
     | _ => false)

def s2ContinuationText : String :=
  "Execute the requested tool call(s) above, then answer the original user request in plain language. Do not return tool-call JSON."

/-- The S2 continuation request (lines 503-521): the original messages,
the assistant content so far, the literal continuation instruction,
with `function_calling=default` and the action tools. -/
def s2ContinuationRequest (model_id : String) (messages : List ChatMsg)
    (action_tools : List String) (content : String) : Request :=
  { model := model_id
    messages := messages ++ [⟨"assistant", content⟩, ⟨"user", s2ContinuationText⟩]
    stream := false
    tool_ids := some action_tools
    params := some "default" }

/-- Stage S2 (lines 486-535): on a raw tool-JSON leak with configured
action tools, run one continuation turn and replace content and response
only when the continuation produced non-empty content. -/
def stageS2 (oracle : Oracle) (model_id : String) (messages : List ChatMsg)
    (action_tools : List String) (st : PipeSt) : PipeSt :=
  if detectRawToolRequest st.content && !action_tools.isEmpty then
    if extractAssistantContent
        (issueCall oracle st.log
          (s2ContinuationRequest model_id messages action_tools st.content)).1.message ≠ "" then
      ⟨extractAssistantContent
          (issueCall oracle st.log
            (s2ContinuationRequest model_id messages action_tools st.content)).1.message,
       (issueCall oracle st.log
          (s2ContinuationRequest model_id messages action_tools st.content)).1,
       (issueCall oracle st.log
          (s2ContinuationRequest model_id messages action_tools st.content)).2⟩
    else
      ⟨st.content, st.resp,
       (issueCall oracle st.log
          (s2ContinuationRequest model_id messages action_tools st.content)).2⟩
  else st

/-- The malformed tool-chatter markers (lines 538-546). -/
def chatterMarkers : List String :=
  ["to=", "tool call", "tool_call", "arguments", "need proper json",
   "do not output json", "json"]

/-- The S3 trigger (lines 537-553): some marker occurs in the lowered
content and some configured tool is mentioned. -/
def hasMalformedToolChatter (content : String) (action_tools : List String) : Bool :=
  let lowered := pyLower content
  chatterMarkers.any (fun m => strContains lowered m)
    && action_tools.any (fun t => strContains lowered (pyLower t))

def s3BaseText : String :=
  "Your prior attempt produced malformed tool-call chatter. Execute the intended tool call(s) using available tools, then answer the original request in plain language with concrete results. Do not include tool-call syntax, commentary, analysis text, or JSON."

def s3NotesHint (ids : List String) : String :=
  if ids.isEmpty then ""
  else
    " Use get_note with parameter note_id and one of these IDs: "
      ++ joinSep ", " (ids.take 5)
      ++ ". Do not call list_my_notes/search_notes again unless none of these IDs work."

/-- The note-ID candidates used by the S3 hint (lines 567-571): only
when a notes tool is enabled. -/
def s3NoteIds (action_tools : List String) (sources : List SourceEntry) : List String :=
  if is_notes_tool_enabled action_tools then
    extract_note_ids_from_list_sources sources
  else []

/-- The S3 forced continuation request (lines 582-602): the original
messages and the corrective user turn (with note-ID hint), forcing
`function_calling=default` and the action tools. -/
def s3ForcedRequest (model_id : String) (messages : List ChatMsg)
    (action_tools : List String) (sources : List SourceEntry) : Request :=
  { model := model_id
    messages := messages
      ++ [⟨"user", s3BaseText ++ s3NotesHint (s3NoteIds action_tools sources)⟩]
    stream := false
    tool_ids := some action_tools
    params := some "default" }

/-- The forced continuation of stage S3 (lines 555-616): on malformed
tool chatter with configured action tools, issue the generic
continuation and replace content and response on non-empty content. -/
def stageS3cont (oracle : Oracle) (model_id : String) (messages : List ChatMsg)
    (action_tools : List String) (st : PipeSt) : PipeSt :=
  if hasMalformedToolChatter st.content action_tools && !action_tools.isEmpty then
    if extractAssistantContent
        (issueCall oracle st.log
          (s3ForcedRequest model_id messages action_tools st.resp.sources)).1.message ≠ "" then
      ⟨extractAssistantContent
          (issueCall oracle st.log
            (s3ForcedRequest model_id messages action_tools st.resp.sources)).1.message,
       (issueCall oracle st.log
          (s3ForcedRequest model_id messages action_tools st.resp.sources)).1,
       (issueCall oracle st.log
          (s3ForcedRequest model_id messages action_tools st.resp.sources)).2⟩
    else
      ⟨st.content, st.resp,
       (issueCall oracle st.log
          (s3ForcedRequest model_id messages action_tools st.resp.sources)).2⟩
  else st

/-- Stage S3 (lines 537-619): the forced continuation, then — whenever
the trigger fired, whether or not the continuation replaced the content
— `sanitize_tool_chatter_text` on the resulting content. -/
def stageS3 (oracle : Oracle) (model_id : String) (messages : List ChatMsg)
    (action_tools : List String) (st : PipeSt) : PipeSt :=
  if hasMalformedToolChatter st.content action_tools then
    { stageS3cont oracle model_id messages action_tools st with
      content := sanitize_tool_chatter_text
        (stageS3cont oracle model_id messages action_tools st).content action_tools }
  else stageS3cont oracle model_id messages action_tools st

def s4FollowupText (candidates : String) : String :=
  "You MUST call get_note with parameter note_id using one of these IDs: "
    ++ candidates
    ++ ". Use the exact UUID from the ID column, not the note title. Do not call list_my_notes/search_notes again unless every provided ID fails. After retrieving the note content, answer the original request in plain language."

/-- The S4 trigger (lines 627-654): a listing/search source is present
and either no `get_note` ran, or a `get_note` lookup failed, or the
listing exposed IDs none of which `get_note` actually used. -/
def notesFollowupNeeded (sources : List SourceEntry) : Bool :=
  let has_list := sources.any (fun s =>
    source_matches_note_function s.name "list_my_notes"
    || source_matches_note_function s.name "search_notes")
  let has_get := sources.any (fun s =>
    source_matches_note_function s.name "get_note")
  let note_ids := extract_note_ids_from_list_sources sources
  let extracted := extract_get_note_ids_and_failures sources
  let used_expected := extracted.1.any (fun u => note_ids.contains u)
  has_list && (!has_get || extracted.2 || (!note_ids.isEmpty && !used_expected))

/-- The S4 follow-up request (lines 667-688): the original messages, the
assistant content so far, and the user turn demanding `get_note` on one
of up to five listed UUIDs. -/
def s4FollowupRequest (model_id : String) (messages : List ChatMsg)
    (action_tools : List String) (content : String)
    (sources : List SourceEntry) : Request :=
  { model := model_id
    messages := messages ++ [⟨"assistant", content⟩,
      ⟨"user", s4FollowupText
        (joinSep ", " ((extract_note_ids_from_list_sources sources).take 5))⟩]
    stream := false
    tool_ids := some action_tools
    params := some "default" }

/-- Stage S4, the notes follow-up loop (lines 621-704): while the notes
tool is enabled and fewer than two attempts were made, force `get_note`
when listing ran without a successful, expected content fetch.  The
fuel argument is the remaining attempts (2 at entry). -/
def notesFollowupLoop (oracle : Oracle) (model_id : String) (messages : List ChatMsg)
    (action_tools : List String) : Nat → PipeSt → PipeSt
  | 0, st => st
  | fuel + 1, st =>
    if !is_notes_tool_enabled action_tools then st
    else if !notesFollowupNeeded st.resp.sources then st
    else if (extract_note_ids_from_list_sources st.resp.sources).isEmpty then st
    else if extractAssistantContent
        (issueCall oracle st.log
          (s4FollowupRequest model_id messages action_tools st.content
            st.resp.sources)).1.message ≠ "" then
      notesFollowupLoop oracle model_id messages action_tools fuel
        ⟨sanitize_tool_chatter_text
            (extractAssistantContent
              (issueCall oracle st.log
                (s4FollowupRequest model_id messages action_tools st.content
                  st.resp.sources)).1.message) action_tools,
         (issueCall oracle st.log
            (s4FollowupRequest model_id messages action_tools st.content
              st.resp.sources)).1,
         (issueCall oracle st.log
            (s4FollowupRequest model_id messages action_tools st.content
              st.resp.sources)).2⟩
    else
      ⟨st.content, st.resp,
       (issueCall oracle st.log
          (s4FollowupRequest model_id messages action_tools st.content
            st.resp.sources)).2⟩

/-! ## Job configuration and the whole pipeline -/

/-- The parts of the job record and registry state the repair pipeline
reads.  `model_id` is the resolved model (the registry fall-back of
lines 339-363 only selects which id is used); `model_tool_ids` is
`models[model_id].info.meta.toolIds`. -/
structure PipeConfig where
  system_prompt : Option String := none
  prompt : String := ""
  model_id : String := "model-1"
  prompt_tool_ids : Option (List String) := none
  model_tool_ids : List String := []
  function_calling_mode : String := "default"
deriving Repr

/-- Lines 366-373: a job without its own tools inherits the model's
configured tool list. -/
def resolveToolIds (prompt_tool_ids : Option (List String))
    (model_tool_ids : List String) : Option (List String) :=
  if optListTruthy prompt_tool_ids then prompt_tool_ids
  else if !model_tool_ids.isEmpty then some model_tool_ids
  else prompt_tool_ids

/-- Line 376: drop every tool id whose lowercase form contains
`prompt_scheduler`. -/
def computeActionTools (tool_ids : List String) : List String :=
  tool_ids.filter (fun t => !strContains (pyLower t) "prompt_scheduler")

/-- Lines 322-329: empty mode falls back to `default`; anything outside
`default`/`native` is treated as `auto`. -/
def normalizeMode (raw : String) : String :=
  let mode0 := if raw = "" then "default" else raw
  if mode0 = "default" || mode0 = "native" then mode0 else "auto"

/-- Lines 389-399: the automation instruction appended to the system
message when the job has tools. -/
def toolInstruction (action_tools : List String) : String :=
  let base :=
    if !action_tools.isEmpty then
      "\n\nIMPORTANT: This is an automated scheduled reminder. You have access to these tools: "
        ++ joinSep ", " action_tools
        ++ ". Use them to help the user with their request. For example, if this is about a todo list, use the notes_manager tool to fetch the actual current data."
    else
      "\n\nIMPORTANT: This is an automated scheduled reminder. Respond helpfully to the user\x27s request."
  if action_tools.contains "notes_manager" then
    base ++ "\n\nWhen using notes_manager for todos/notes: do not stop after list_my_notes if the user asked for note contents. Use get_note on the relevant note ID and summarize the actual items from the note content."
  else base

/-- Lines 304-313: system prompt (when truthy) followed by the user prompt. -/
def baseMessages (cfg : PipeConfig) : List ChatMsg :=
  (match cfg.system_prompt with
   | some s => if s = "" then [] else [⟨"system", s⟩]
   | none => []) ++ [⟨"user", cfg.prompt⟩]

/-- Lines 401-407: merge the instruction into the leading system message
or insert a fresh one. -/
def addToolInstruction (instr : String) : List ChatMsg → List ChatMsg
  | m :: rest =>
    if m.role = "system" then { m with content := m.content ++ instr } :: rest
    else ⟨"system", "You are a helpful assistant." ++ instr⟩ :: m :: rest
  | [] => [⟨"system", "You are a helpful assistant." ++ instr⟩]

/-- The resolved tool ids of a run. -/
def cfgToolIds (cfg : PipeConfig) : Option (List String) :=
  resolveToolIds cfg.prompt_tool_ids cfg.model_tool_ids

/-- The action tools of a run. -/
def cfgActionTools (cfg : PipeConfig) : List String :=
  computeActionTools ((cfgToolIds cfg).getD [])

/-- The messages actually sent (instruction added only when the job has
tools, lines 378-407). -/
def cfgMessages (cfg : PipeConfig) : List ChatMsg :=
  if optListTruthy (cfgToolIds cfg) then
    addToolInstruction (toolInstruction (cfgActionTools cfg)) (baseMessages cfg)
  else baseMessages cfg

/-- The initial `params` (lines 322-329): present exactly for the
`default` and `native` modes. -/
def initialParams (raw : String) : Option String :=
  let mode0 := if raw = "" then "default" else raw
  if mode0 = "default" || mode0 = "native" then some mode0 else none

/-- The initial request payload (lines 316-330, 363, 378-381). -/
def initialPayload (cfg : PipeConfig) : Request :=
  { model := cfg.model_id
    messages := cfgMessages cfg
    stream := false
    tool_ids :=
      if optListTruthy (cfgToolIds cfg) && !(cfgActionTools cfg).isEmpty then
        some (cfgActionTools cfg)
      else none
    params := initialParams cfg.function_calling_mode }

/-- The repair pipeline of `execute_scheduled_prompt` (lines 439-704):
initial call, S1 retry/sentinel, S2 raw tool-JSON continuation, S3
malformed-chatter continuation and sanitization, S4 notes follow-up
loop.  The resulting `content` is what lines 714-717 persist as the
assistant message content. -/
def execute_scheduled_prompt_core (cfg : PipeConfig) (oracle : Oracle) : PipeSt :=
  notesFollowupLoop oracle cfg.model_id (cfgMessages cfg) (cfgActionTools cfg) 2
    (stageS3 oracle cfg.model_id (cfgMessages cfg) (cfgActionTools cfg)
      (stageS2 oracle cfg.model_id (cfgMessages cfg) (cfgActionTools cfg)
        (stageS1 oracle (initialPayload cfg) (normalizeMode cfg.function_calling_mode)
          ⟨extractAssistantContent (issueCall oracle [] (initialPayload cfg)).1.message,
           (issueCall oracle [] (initialPayload cfg)).1,
           (issueCall oracle [] (initialPayload cfg)).2⟩)))

/-- The content of the assistant message the run persists (line 717). -/
def persistedAssistantContent (cfg : PipeConfig) (oracle : Oracle) : String :=
  (execute_scheduled_prompt_core cfg oracle).content

/-! ## The scheduled_prompt row and its mutations
(models/scheduled_prompts.py) -/

/-- The `scheduled_prompt` table row.  Nullable columns are `Option`;
timestamps are naturals. -/
structure ScheduledPromptRow where
  id : String := ""
  user_id : String := ""
  name : String := ""
  cron_expression : String := "* * * * *"
  timezone : String := "UTC"
  enabled : Bool := true
  model_id : String := ""
  system_prompt : Option String := none
  prompt : String := ""
  chat_id : Option String := none
  create_new_chat : Bool := true
  run_once : Bool := false
  tool_ids : Option (List String) := none
  function_calling_mode : String := "default"
  last_run_at : Option Nat := none
  next_run_at : Option Nat := none
  last_status : Option String := none
  last_error : Option String := none
  run_count : Option Int := some 0
  created_at : Nat := 0
  updated_at : Nat := 0
deriving Repr, DecidableEq

/-- The `ScheduledPromptUpdateForm`: every field optional, `None` meaning
"leave unchanged". -/
structure ScheduledPromptUpdateForm where
  name : Option String := none
  cron_expression : Option String := none
  timezone : Option String := none
  enabled : Option Bool := none
  model_id : Option String := none
  system_prompt : Option String := none
  prompt : Option String := none
  create_new_chat : Option Bool := none
  run_once : Option Bool := none
  tool_ids : Option (List String) := none
  function_calling_mode : Option String := none
deriving Repr, DecidableEq

/-- Embeds `ScheduledPromptTable.update_execution_status` (lines 318-347) on an
existing row: always overwrite `last_run_at`, `last_status`,
`last_error` and `updated_at`, bump `run_count`, and update `chat_id`
and `next_run_at` only when the argument is not `None`.  `now` models
`int(time.time())`. -/
def update_execution_status (row : ScheduledPromptRow) (status : String)
    (error : Option String) (chat_id : Option String) (next_run_at : Option Nat)
    (now : Nat) : ScheduledPromptRow :=
  let row := { row with
    last_run_at := some now
    last_status := some status
    last_error := error
    run_count := some (row.run_count.getD 0 + 1) }
  let row :=
    match chat_id with
    | some c => { row with chat_id := some c }
    | none => row
  let row :=
    match next_run_at with
    | some n => { row with next_run_at := some n }
    | none => row
  { row with updated_at := now }

/-- Embeds `ScheduledPromptTable.update_scheduled_prompt_by_id` (lines 277-316)
on an existing row: apply every provided form field, the optional
`next_run_at`, and stamp `updated_at`. -/
def update_scheduled_prompt_by_id (row : ScheduledPromptRow)
    (form : ScheduledPromptUpdateForm) (next_run_at : Option Nat)
    (now : Nat) : ScheduledPromptRow :=
  let row := match form.name with | some v => { row with name := v } | none => row
  let row := match form.cron_expression with
    | some v => { row with cron_expression := v } | none => row
  let row := match form.timezone with | some v => { row with timezone := v } | none => row
  let row := match form.enabled with | some v => { row with enabled := v } | none => row
  let row := match form.model_id with | some v => { row with model_id := v } | none => row
  let row := match form.system_prompt with
    | some v => { row with system_prompt := some v } | none => row
  let row := match form.prompt with | some v => { row with prompt := v } | none => row
  let row := match form.create_new_chat with
    | some v => { row with create_new_chat := v } | none => row
  let row := match form.run_once with | some v => { row with run_once := v } | none => row
  let row := match form.tool_ids with
    | some v => { row with tool_ids := some v } | none => row
  let row := match form.function_calling_mode with
    | some v => { row with function_calling_mode := v } | none => row
  let row := match next_run_at with
    | some n => { row with next_run_at := some n } | none => row
  { row with updated_at := now }

/-! ## Cron evaluation
(`calculate_next_run`, scheduler.py lines 59-73)

Modelled from the spec: the actual next-fire computation lives in the
third-party `croniter` package and the timezone database in `zoneinfo`,
neither of which is part of this repository.  The spec's CronEvaluator
contract says `next(expr, tz_name, from_instant)` is deterministic,
pure, and returns the strictly-future next fire instant; we abstract
the croniter computation as a function argument `cronNext` and the
zoneinfo lookup as a predicate `isKnownTz`, keeping the source's
control flow: resolve the timezone, falling back to UTC when the name
is unknown, then evaluate the cron expression from the current
instant. -/

/-- Resolution `ZoneInfo(timezone)` with the `except` fallback to UTC. -/
def resolveTimezone (isKnownTz : String → Bool) (tz : String) : String :=
  if isKnownTz tz then tz else "UTC"

/-- Embeds `calculate_next_run(cron_expression, timezone)`, with the clock read
`datetime.now(tz)` passed explicitly as `now`. -/
def calculate_next_run (cronNext : String → String → Nat → Nat)
    (isKnownTz : String → Bool) (cron_expression timezone : String)
    (now : Nat) : Nat :=
  cronNext cron_expression (resolveTimezone isKnownTz timezone) now

/-! ## Post-run job-state transitions
(scheduler.py lines 792-818 on success, 882-903 on error) -/

/-- Success of a `run_once` job (lines 793-808): record the execution
with `next_run_at=None` (which `update_execution_status` treats as
"leave unchanged"), then disable the job. -/
def runOnceSuccessUpdate (row : ScheduledPromptRow) (chat_id : Option String)
    (now : Nat) : ScheduledPromptRow :=
  update_scheduled_prompt_by_id
    (update_execution_status row "success" none chat_id none now)
    { enabled := some false } none now

/-- Failure of a `run_once` job (lines 882-894). -/
def runOnceErrorUpdate (row : ScheduledPromptRow) (errMsg : String)
    (now : Nat) : ScheduledPromptRow :=
  update_scheduled_prompt_by_id
    (update_execution_status row "error" (some errMsg) none none now)
    { enabled := some false } none now

/-- Success of a recurring job (lines 809-818): advance `next_run_at` by
the cron evaluation at the observed instant. -/
def recurringSuccessUpdate (cronNext : String → String → Nat → Nat)
    (isKnownTz : String → Bool) (row : ScheduledPromptRow)
    (chat_id : Option String) (now : Nat) : ScheduledPromptRow :=
  update_execution_status row "success" none chat_id
    (some (calculate_next_run cronNext isKnownTz row.cron_expression row.timezone now))
    now

/-- Failure of a recurring job (lines 895-903): the schedule still
advances. -/
def recurringErrorUpdate (cronNext : String → String → Nat → Nat)
    (isKnownTz : String → Bool) (row : ScheduledPromptRow)
    (errMsg : String) (now : Nat) : ScheduledPromptRow :=
  update_execution_status row "error" (some errMsg) none
    (some (calculate_next_run cronNext isKnownTz row.cron_expression row.timezone now))
    now

/-! ## The ntfy notifier
(`send_ntfy_notification`, scheduler.py lines 1047-1124) -/

/-- The settings object `user.settings.ui.notifications.ntfy`. -/
structure NtfySettings where
  enabled : Bool := false
  server_url : Option String := none
  topic : Option String := none
  token : Option String := none
deriving Repr, DecidableEq

/-- The notification data dict passed by the run. -/
structure NtfyData where
  status : Option String := none
  title : Option String := none
  message : Option String := none
  chat_url : Option String := none
  scheduled_prompts_url : Option String := none
  url : Option String := none
deriving Repr, DecidableEq

/-- The POST the notifier issues: target URL, headers and body (the body
bytes are the UTF-8 encoding of `body`). -/
structure NtfyRequest where
  url : String
  title : String
  tags : String
  priority : String
  click : Option String := none
  actions : Option String := none
  authorization : Option String := none
  body : String
deriving Repr, DecidableEq

/-- A truthy optional string (`None` for ``None``/empty). -/
def optTruthy (o : Option String) : Option String :=
  match o with
  | some s => if s = "" then none else some s
  | none => none

/-- The cleaned topic (`(ntfy.get("topic") or "").strip().strip("/")`). -/
def ntfyCleanTopic (ntfy : NtfySettings) : String :=
  pyStripChar '/' (pyStrip (pyStrOr ntfy.topic ""))

/-- The cleaned token (`(ntfy.get("token") or "").strip()`). -/
def ntfyCleanToken (ntfy : NtfySettings) : String :=
  pyStrip (pyStrOr ntfy.token "")

/-- Lines 1072-1104: the POST issued once the enabled/topic checks
passed: URL, title, tag and priority by status, `Click` preferring the
chat URL, `Actions` deep links and optional bearer authorization; the
body is the message itself. -/
def ntfyReqOf (ntfy : NtfySettings) (data : NtfyData) : NtfyRequest :=
  let server_url := pyRstripChar '/' (pyStrOr ntfy.server_url "https://ntfy.sh")
  let status := data.status.getD "info"
  let actionEntries :=
    (match optTruthy data.chat_url with
     | some u => ["view, Open Chat, " ++ u]
     | none => []) ++
    (match optTruthy data.scheduled_prompts_url with
     | some u => ["view, Scheduled Prompts, " ++ u]
     | none => [])
  { url := server_url ++ "/" ++ ntfyCleanTopic ntfy
    title := pyStrOr data.title "Scheduled prompt notification"
    tags := if status = "success" then "calendar" else "warning"
    priority := if status = "success" then "default" else "high"
    click := (optTruthy data.chat_url).orElse (fun _ =>
      (optTruthy data.scheduled_prompts_url).orElse (fun _ => optTruthy data.url))
    actions := if actionEntries.isEmpty then none else some (joinSep "; " actionEntries)
    authorization :=
      if ntfyCleanToken ntfy = "" then none
      else some ("Bearer " ++ ntfyCleanToken ntfy)
    body := pyStrOr data.message "Scheduled prompt update" }

/-- Lines 1069-1080: decide whether to post (ntfy enabled and non-empty
topic) and assemble the request. -/
def buildNtfyRequest (ntfy : NtfySettings) (data : NtfyData) : Option NtfyRequest :=
  if !ntfy.enabled then none
  else if ntfyCleanTopic ntfy = "" then none
  else some (ntfyReqOf ntfy data)

/-- The observable outcome of `send_ntfy_notification`: skipped, posted
(with the HTTP status; non-2xx statuses are only logged), or an
exception caught and logged by the surrounding `try`/`except`. -/
inductive NtfyOutcome where
  | skipped : NtfyOutcome
  | posted : NtfyRequest → Nat → NtfyOutcome
  | failureLogged : String → NtfyOutcome
deriving Repr, DecidableEq

/-- Embeds `send_ntfy_notification(user, data)`: `settings` is
`user.settings...ntfy` when the user and settings exist; `post` models
the HTTP POST, either returning a status code or raising.  Every path
returns an outcome — nothing propagates to the caller. -/
def send_ntfy_notification (settings : Option NtfySettings) (data : NtfyData)
    (post : NtfyRequest → Except String Nat) : NtfyOutcome :=
  match settings with
  | none => NtfyOutcome.skipped
  | some ntfy =>
    match buildNtfyRequest ntfy data with
    | none => NtfyOutcome.skipped
    | some req =>
      match post req with
      | Except.ok status => NtfyOutcome.posted req status
      | Except.error e => NtfyOutcome.failureLogged e

/-! ## Theorems -/

/-- C6: `update_execution_status` on an existing row leaves `chat_id`
and `next_run_at` unchanged when the corresponding argument is `None`
(a `None` argument never clears a field), always overwrites
`last_run_at`, `last_status`, `last_error` and `updated_at`, increments
`run_count` by exactly one (from the stored value, an absent count
reading as 0), and leaves every other field of the row unchanged. -/
theorem scheduled_prompts_c6_update_execution_status_frame
    (row : ScheduledPromptRow) (status : String) (error : Option String)
    (chat_id : Option String) (next_run_at : Option Nat) (now : Nat) :
    (update_execution_status row status error chat_id next_run_at now).chat_id
      = (match chat_id with | some c => some c | none => row.chat_id)
    ∧ (update_execution_status row status error chat_id next_run_at now).next_run_at
      = (match next_run_at with | some n => some n | none => row.next_run_at)
    ∧ (update_execution_status row status error chat_id next_run_at now).last_run_at = some now
    ∧ (update_execution_status row status error chat_id next_run_at now).last_status = some status
    ∧ (update_execution_status row status error chat_id next_run_at now).last_error = error
    ∧ (update_execution_status row status error chat_id next_run_at now).updated_at = now
    ∧ (update_execution_status row status error chat_id next_run_at now).run_count
      = some (row.run_count.getD 0 + 1)
    ∧ (update_execution_status row status error chat_id next_run_at now).id = row.id
    ∧ (update_execution_status row status error chat_id next_run_at now).user_id = row.user_id
    ∧ (update_execution_status row status error chat_id next_run_at now).name = row.name
    ∧ (update_execution_status row status error chat_id next_run_at now).cron_expression
      = row.cron_expression
    ∧ (update_execution_status row status error chat_id next_run_at now).timezone = row.timezone
    ∧ (update_execution_status row status error chat_id next_run_at now).enabled = row.enabled
    ∧ (update_execution_status row status error chat_id next_run_at now).model_id = row.model_id
    ∧ (update_execution_status row status error chat_id next_run_at now).system_prompt
      = row.system_prompt
    ∧ (update_execution_status row status error chat_id next_run_at now).prompt = row.prompt
    ∧ (update_execution_status row status error chat_id next_run_at now).create_new_chat
      = row.create_new_chat
    ∧ (update_execution_status row status error chat_id next_run_at now).run_once = row.run_once
    ∧ (update_execution_status row status error chat_id next_run_at now).tool_ids = row.tool_ids
    ∧ (update_execution_status row status error chat_id next_run_at now).function_calling_mode
      = row.function_calling_mode
    ∧ (update_execution_status row status error chat_id next_run_at now).created_at
      = row.created_at := by
  cases chat_id <;> cases next_run_at <;>
    simp [update_execution_status]

/-- A concrete one-shot job row about to run. -/
def c1Row : ScheduledPromptRow :=
  { id := "p1", user_id := "u1", name := "one-off", run_once := true,
    enabled := true, next_run_at := some 1000 }

/-- C1 counterexample: after the success path of a `run_once` job whose
stored `next_run_at` was 1000, the post-state does NOT satisfy
`enabled = false ∧ next_run_at = null` — the job is disabled but
`next_run_at` keeps its old value, because `update_execution_status`
treats the `next_run_at=None` argument as "leave unchanged". -/
theorem scheduler_c1_counterexample :
    ¬ ((runOnceSuccessUpdate c1Row (some "chat-1") 2000).enabled = false
       ∧ (runOnceSuccessUpdate c1Row (some "chat-1") 2000).next_run_at = none) := by
  decide

/-- C1 amended: after any run (success or error) of a `run_once` job the
post-state has `enabled = false`, and `next_run_at` is left unchanged
from its pre-run value (it is not cleared to null: the engine passes
`next_run_at=None` to `update_execution_status`, which skips `None`
fields). -/
theorem scheduler_c1_amended (row : ScheduledPromptRow) (chat_id : Option String)
    (errMsg : String) (now : Nat) :
    (runOnceSuccessUpdate row chat_id now).enabled = false
    ∧ (runOnceSuccessUpdate row chat_id now).next_run_at = row.next_run_at
    ∧ (runOnceErrorUpdate row errMsg now).enabled = false
    ∧ (runOnceErrorUpdate row errMsg now).next_run_at = row.next_run_at := by
  cases chat_id <;>
    simp [runOnceSuccessUpdate, runOnceErrorUpdate, update_execution_status,
      update_scheduled_prompt_by_id]

/-- C5: after every run of a recurring job, success or error, the stored
`next_run_at` is exactly `calculate_next_run` of the job's cron
expression and timezone at the observed run instant, it is strictly in
the future, and the job stays enabled (failures never pause the
schedule).  The croniter computation is a third-party import, modelled
from the spec by the parameter `cronNext` with the contract that the
next fire instant is strictly future. -/
theorem scheduler_c5_recurring_next_run
    (cronNext : String → String → Nat → Nat) (isKnownTz : String → Bool)
    (row : ScheduledPromptRow) (chat_id : Option String) (errMsg : String) (now : Nat)
    (hfuture : ∀ e t n, n < cronNext e t n) :
    (recurringSuccessUpdate cronNext isKnownTz row chat_id now).next_run_at
      = some (calculate_next_run cronNext isKnownTz row.cron_expression row.timezone now)
    ∧ (recurringErrorUpdate cronNext isKnownTz row errMsg now).next_run_at
      = some (calculate_next_run cronNext isKnownTz row.cron_expression row.timezone now)
    ∧ now < calculate_next_run cronNext isKnownTz row.cron_expression row.timezone now
    ∧ (recurringSuccessUpdate cronNext isKnownTz row chat_id now).enabled = row.enabled
    ∧ (recurringErrorUpdate cronNext isKnownTz row errMsg now).enabled = row.enabled := by
  refine ⟨?_, ?_, hfuture _ _ _, ?_, ?_⟩ <;>
    cases chat_id <;>
      simp [recurringSuccessUpdate, recurringErrorUpdate, update_execution_status]

/-- C5 witness at a concrete recurring job and a concrete strictly-future
cron evaluator. -/
theorem scheduler_c5_witness :
    (recurringSuccessUpdate (fun _ _ n => n + 300) (fun _ => true)
        { c1Row with run_once := false } (some "chat-2") 5000).next_run_at
      = some (calculate_next_run (fun _ _ n => n + 300) (fun _ => true)
          "* * * * *" "UTC" 5000)
    ∧ 5000 < calculate_next_run (fun _ _ n => n + 300) (fun _ => true)
        "* * * * *" "UTC" 5000 := by
  have h := scheduler_c5_recurring_next_run (fun _ _ n => n + 300) (fun _ => true)
    { c1Row with run_once := false } (some "chat-2") "err" 5000
    (fun _ _ n => Nat.lt_add_of_pos_right (by decide))
  exact ⟨h.1, h.2.2.1⟩

/-- C10: `calculate_next_run` is (by construction of the shallow
embedding, with the clock read passed explicitly) a pure function of
the cron expression, the timezone name and the observed instant; its
result is strictly in the future, and an unknown timezone name falls
back to UTC silently, while a known one is used as given.  The croniter
next-fire computation and the zoneinfo database are third-party code,
modelled from the spec by `cronNext` (with the strictly-future
contract) and the predicate `isKnownTz`. -/
theorem scheduler_c10_calculate_next_run
    (cronNext : String → String → Nat → Nat) (isKnownTz : String → Bool)
    (hfuture : ∀ e t n, n < cronNext e t n) :
    (∀ e t n, n < calculate_next_run cronNext isKnownTz e t n)
    ∧ (∀ e t n, isKnownTz t = false →
        calculate_next_run cronNext isKnownTz e t n = cronNext e "UTC" n)
    ∧ (∀ e t n, isKnownTz t = true →
        calculate_next_run cronNext isKnownTz e t n = cronNext e t n) := by
  refine ⟨fun e t n => hfuture _ _ _, fun e t n h => ?_, fun e t n h => ?_⟩ <;>
    simp [calculate_next_run, resolveTimezone, h]

/-- C10 witness: a concrete evaluator, a concrete unknown timezone. -/
theorem scheduler_c10_witness :
    (17 < calculate_next_run (fun _ _ n => n + 60) (fun t => t = "UTC") "*/5 * * * *" "UTC" 17)
    ∧ calculate_next_run (fun _ _ n => n + 60) (fun t => t = "UTC") "*/5 * * * *" "Not/AZone" 17
      = (fun (_ _ : String) (n : Nat) => n + 60) "*/5 * * * *" "UTC" 17 := by
  have h := scheduler_c10_calculate_next_run (fun _ _ n => n + 60) (fun t => t = "UTC")
    (fun _ _ n => Nat.lt_add_of_pos_right (by decide))
  exact ⟨h.1 "*/5 * * * *" "UTC" 17, h.2.1 "*/5 * * * *" "Not/AZone" 17 (by decide)⟩

/-- C9: for every outcome delivered to a user whose settings enable
ntfy with a non-empty topic, the notifier posts to `<server>/<topic>`
with tags `calendar`/`warning` and priority `default`/`high` for
success/error, a `Click` header equal to the chat URL when present and
otherwise the scheduled-prompts URL, an `Actions` header enumerating
the "Open Chat" and "Scheduled Prompts" entries when those URLs exist,
a bearer `Authorization` header when a token is configured, and a body
that is exactly the human-readable message (no deep link is appended
to it).  Whatever the HTTP call does — any status code, or an
exception — the function returns an `NtfyOutcome`; a non-2xx status
still yields a normal `posted` outcome and a raised error is caught
into `failureLogged`, so no Notifier failure propagates. -/
theorem scheduler_c9_ntfy (ntfy : NtfySettings) (data : NtfyData)
    (post : NtfyRequest → Except String Nat)
    (henabled : ntfy.enabled = true)
    (htopic : ntfyCleanTopic ntfy ≠ "") :
    ∃ req, buildNtfyRequest ntfy data = some req
      ∧ req.url = pyRstripChar '/' (pyStrOr ntfy.server_url "https://ntfy.sh")
          ++ "/" ++ ntfyCleanTopic ntfy
      ∧ (data.status.getD "info" = "success" →
          req.tags = "calendar" ∧ req.priority = "default")
      ∧ (data.status.getD "info" = "error" →
          req.tags = "warning" ∧ req.priority = "high")
      ∧ (∀ u, optTruthy data.chat_url = some u → req.click = some u)
      ∧ (optTruthy data.chat_url = none →
          ∀ u, optTruthy data.scheduled_prompts_url = some u → req.click = some u)
      ∧ (∀ cu su, optTruthy data.chat_url = some cu →
          optTruthy data.scheduled_prompts_url = some su →
          req.actions = some ("view, Open Chat, " ++ cu
            ++ "; " ++ "view, Scheduled Prompts, " ++ su))
      ∧ (ntfyCleanToken ntfy ≠ "" →
          req.authorization = some ("Bearer " ++ ntfyCleanToken ntfy))
      ∧ req.body = pyStrOr data.message "Scheduled prompt update"
      ∧ (∀ s, post req = Except.ok s →
          send_ntfy_notification (some ntfy) data post = NtfyOutcome.posted req s)
      ∧ (∀ e, post req = Except.error e →
          send_ntfy_notification (some ntfy) data post = NtfyOutcome.failureLogged e) := by
  have hbuild : buildNtfyRequest ntfy data = some (ntfyReqOf ntfy data) := by
    unfold buildNtfyRequest
    rw [henabled]
    simp only [Bool.not_true, Bool.false_eq_true, if_false]
    rw [if_neg htopic]
  refine ⟨ntfyReqOf ntfy data, hbuild, rfl, ?_, ?_, ?_, ?_, ?_, ?_, rfl, ?_, ?_⟩
  · intro h
    constructor <;> simp [ntfyReqOf, h]
  · intro h
    constructor <;> simp [ntfyReqOf, h]
  · intro u hu
    simp [ntfyReqOf, hu, Option.orElse]
  · intro h u hu
    simp [ntfyReqOf, h, hu, Option.orElse]
  · intro cu su hcu hsu
    simp only [ntfyReqOf, hcu, hsu, joinSep, List.singleton_append, List.isEmpty_cons,
      Bool.false_eq_true, if_false, Option.some.injEq, String.append_assoc]
  · intro htok
    simp only [ntfyReqOf]
    rw [if_neg htok]
  · intro s hs
    simp [send_ntfy_notification, hbuild, hs]
  · intro e he
    simp [send_ntfy_notification, hbuild, he]

/-- Concrete settings for the C9 witness. -/
def c9Settings : NtfySettings :=
  { enabled := true, server_url := some "https://ntfy.sh",
    topic := some "my-topic", token := some "secret-token" }

/-- Concrete data for the C9 witness. -/
def c9Data : NtfyData :=
  { status := some "success", title := some "Scheduled prompt completed",
    message := some "Prompt ran successfully",
    chat_url := some "https://owui.example.com/c/chat-123",
    scheduled_prompts_url := some "https://owui.example.com/workspace/scheduled-prompts" }

/-- C9 witness: the theorem applied at concrete enabled settings. -/
theorem scheduler_c9_witness :
    ∃ req, buildNtfyRequest c9Settings c9Data = some req
      ∧ req.url = "https://ntfy.sh" ++ "/" ++ ntfyCleanTopic c9Settings
      ∧ req.body = "Prompt ran successfully" := by
  obtain ⟨req, hsome, hurl, _, _, _, _, _, _, hbody, _, _⟩ :=
    scheduler_c9_ntfy c9Settings c9Data (fun _ => Except.ok 200)
      (by decide) (by decide)
  exact ⟨req, hsome, by rw [hurl]; rfl, by rw [hbody]; rfl⟩

/-- The C7 counterexample content: the first sanitization pass removes
the leading `to=p to=q …` token run together with the 30-character
junk token, uncovering a fresh `to=aa to=bb` run (previously glued to
the junk, hence not at a word boundary) that only the second pass can
remove. -/
def c7Content : String :=
  "- to=p to=q xxxxxxxxxxxxxxxxxxxxxxxxxxxxxxto=aa to=bb"

/-- C7 counterexample: `sanitize_tool_chatter_text` is not idempotent.
On `c7Content` with action tools `["aa"]` the first pass yields
`"- to=aa to=bb"` and the second pass shrinks it further to `"-"`. -/
theorem scheduler_c7_counterexample :
    sanitize_tool_chatter_text c7Content ["aa"] = "- to=aa to=bb"
    ∧ sanitize_tool_chatter_text "- to=aa to=bb" ["aa"] = "-"
    ∧ sanitize_tool_chatter_text (sanitize_tool_chatter_text c7Content ["aa"]) ["aa"]
      ≠ sanitize_tool_chatter_text c7Content ["aa"] := by
  refine ⟨by rfl, by rfl, ?_⟩
  intro h
  rw [show sanitize_tool_chatter_text c7Content ["aa"] = "- to=aa to=bb" from rfl] at h
  rw [show sanitize_tool_chatter_text "- to=aa to=bb" ["aa"] = "-" from rfl] at h
  simp at h

/-- Helper: when the chatter guard fails (no `to=` substring or no
mentioned tool), `sanitize_tool_chatter_text` is the identity. -/
theorem sanitize_guard_id (c : String) (ts : List String)
    (h : chatterGuard c ts = false) :
    sanitize_tool_chatter_text c ts = c := by
  unfold sanitize_tool_chatter_text
  split
  · rfl
  · rw [h]
    rfl

/-- C7 amended: running `sanitizeToolChatter` twice is NOT idempotent in
general (see the counterexample); it is idempotent on every input on
which its guard fails — content with no `to=` substring or mentioning
no action tool — where the function is the identity. -/
theorem scheduler_c7_amended (c : String) (ts : List String)
    (h : chatterGuard c ts = false) :
    sanitize_tool_chatter_text (sanitize_tool_chatter_text c ts) ts
      = sanitize_tool_chatter_text c ts := by
  rw [sanitize_guard_id c ts h, sanitize_guard_id c ts h]

/-- C7 witness: the amended idempotence at a concrete guard-failing input. -/
theorem scheduler_c7_witness :
    sanitize_tool_chatter_text (sanitize_tool_chatter_text "hello there" ["aa"]) ["aa"]
      = sanitize_tool_chatter_text "hello there" ["aa"] :=
  scheduler_c7_amended "hello there" ["aa"] (by decide)

/-! ### Content-nonemptiness lemmas for the pipeline -/

/-- Preservation: `sanitize_tool_chatter_text` never turns non-empty content into the
empty string: every path returns the original content, a non-empty
block, or a non-empty cleaned string. -/
theorem sanitize_ne_empty (c : String) (ts : List String) (h : c ≠ "") :
    sanitize_tool_chatter_text c ts ≠ "" := by
  unfold sanitize_tool_chatter_text
  split
  · exact h
  split
  · exact h
  split
  · rename_i b hb
    split at hb
    · have hmem := List.mem_of_find?_eq_some hb
      rw [List.mem_reverse, chatterBlocks, List.mem_filter] at hmem
      simpa using hmem.2
    · exact absurd hb (by simp)
  · split
    · exact h
    · rename_i hcl
      exact hcl

theorem sentinel_ne_empty : sentinelText ≠ "" := by decide

/-- After S1 the content is non-empty whenever the incoming content was
non-empty or the response carried tool calls. -/
theorem stageS1_content_ne (oracle : Oracle) (payload : Request) (mode : String)
    (st : PipeSt) (h : st.content ≠ "" ∨ st.resp.message.tool_calls ≠ []) :
    (stageS1 oracle payload mode st).content ≠ "" := by
  unfold stageS1
  split
  · split
    · show (if extractAssistantContent
            (issueCall oracle st.log (s1RetryRequest payload)).1.message = ""
          then sentinelText
          else extractAssistantContent
            (issueCall oracle st.log (s1RetryRequest payload)).1.message) ≠ ""
      split
      · exact sentinel_ne_empty
      · rename_i hc1
        exact hc1
    · exact sentinel_ne_empty
  · rename_i hcond
    rcases h with h | h
    · exact h
    · intro hc
      exact hcond (by simp [hc, List.isEmpty_iff, h])

/-- S2 preserves non-empty content. -/
theorem stageS2_content_ne (oracle : Oracle) (model_id : String)
    (messages : List ChatMsg) (action_tools : List String) (st : PipeSt)
    (h : st.content ≠ "") :
    (stageS2 oracle model_id messages action_tools st).content ≠ "" := by
  unfold stageS2
  split
  · split
    · rename_i hcc
      exact hcc
    · exact h
  · exact h

/-- The S3 continuation preserves non-empty content. -/
theorem stageS3cont_content_ne (oracle : Oracle) (model_id : String)
    (messages : List ChatMsg) (action_tools : List String) (st : PipeSt)
    (h : st.content ≠ "") :
    (stageS3cont oracle model_id messages action_tools st).content ≠ "" := by
  unfold stageS3cont
  split
  · split
    · rename_i hfc
      exact hfc
    · exact h
  · exact h

/-- S3 (continuation plus sanitization) preserves non-empty content. -/
theorem stageS3_content_ne (oracle : Oracle) (model_id : String)
    (messages : List ChatMsg) (action_tools : List String) (st : PipeSt)
    (h : st.content ≠ "") :
    (stageS3 oracle model_id messages action_tools st).content ≠ "" := by
  unfold stageS3
  split
  · exact sanitize_ne_empty _ _
      (stageS3cont_content_ne oracle model_id messages action_tools st h)
  · exact stageS3cont_content_ne oracle model_id messages action_tools st h

/-- The notes follow-up loop preserves non-empty content: it only ever
replaces the content by a sanitized non-empty follow-up. -/
theorem notesLoop_content_ne (oracle : Oracle) (model_id : String)
    (messages : List ChatMsg) (action_tools : List String) :
    ∀ (fuel : Nat) (st : PipeSt), st.content ≠ "" →
      (notesFollowupLoop oracle model_id messages action_tools fuel st).content ≠ "" := by
  intro fuel
  induction fuel with
  | zero => intro st h; exact h
  | succ fuel ih =>
    intro st h
    unfold notesFollowupLoop
    split
    · exact h
    split
    · exact h
    split
    · exact h
    split
    · rename_i hfc
      exact ih _ (sanitize_ne_empty _ _ hfc)
    · exact h

/-! ### C2 -/

/-- Configuration for the C2 counterexample: a plain job with no tools. -/
def c2Cfg : PipeConfig := { prompt := "hi", model_id := "m" }

/-- An oracle whose first response has empty content and no tool calls. -/
def c2Oracle : Oracle := fun _ _ => { message := { content := some "" } }

/-- C2 counterexample: when the initial response has empty content and
no `tool_calls`, the engine persists an assistant message whose content
is the empty string — neither non-empty nor the sentinel — because the
fallback of lines 449-481 only runs when `tool_calls` is non-empty. -/
theorem scheduler_c2_counterexample :
    ¬ (persistedAssistantContent c2Cfg c2Oracle ≠ ""
       ∨ persistedAssistantContent c2Cfg c2Oracle = sentinelText) := by
  decide

/-- C2 amended: every assistant message the engine persists has
non-empty content (the sentinel being one of the non-empty
possibilities), PROVIDED the initial response had non-empty
content/reasoning_content or a non-empty `tool_calls` list; when the
initial response is empty with no tool calls, the persisted content can
be the empty string (see the counterexample). -/
theorem scheduler_c2_amended (cfg : PipeConfig) (oracle : Oracle)
    (h : extractAssistantContent (oracle 0 (initialPayload cfg)).message ≠ ""
         ∨ (oracle 0 (initialPayload cfg)).message.tool_calls ≠ []) :
    persistedAssistantContent cfg oracle ≠ "" := by
  unfold persistedAssistantContent execute_scheduled_prompt_core
  apply notesLoop_content_ne
  apply stageS3_content_ne
  apply stageS2_content_ne
  apply stageS1_content_ne
  simpa [issueCall] using h

/-- An oracle returning plain text for the C2 witness. -/
def c2wOracle : Oracle := fun _ _ => { message := { content := some "hello" } }

/-- C2 witness: a run whose initial response has content persists a
non-empty assistant message. -/
theorem scheduler_c2_witness : persistedAssistantContent c2Cfg c2wOracle ≠ "" :=
  scheduler_c2_amended c2Cfg c2wOracle (Or.inl (by decide))

/-! ### C3 -/

/-- C3: when the initial assistant content is empty, the response has
tool calls, and the mode is not `default`, S1 issues exactly one retry
— the initial request with `params.function_calling = "default"` — and
takes the response and the assistant content from that retry (with the
sentinel substituted if the retry is also empty); when the mode is
`default` or `tool_calls` is empty, S1 issues no call at all. -/
theorem scheduler_c3_s1_retry (oracle : Oracle) (payload : Request) (mode : String)
    (st : PipeSt) :
    (st.content = "" → st.resp.message.tool_calls ≠ [] → mode ≠ "default" →
      s1RetryRequest payload = { payload with params := some "default" }
        ∧ (stageS1 oracle payload mode st).log
          = st.log ++ [s1RetryRequest payload]
        ∧ (stageS1 oracle payload mode st).resp
          = oracle st.log.length (s1RetryRequest payload)
        ∧ (stageS1 oracle payload mode st).content
          = (if extractAssistantContent
                (oracle st.log.length (s1RetryRequest payload)).message = ""
             then sentinelText
             else extractAssistantContent
                (oracle st.log.length (s1RetryRequest payload)).message))
    ∧ ((mode = "default" ∨ st.resp.message.tool_calls = []) →
        (stageS1 oracle payload mode st).log = st.log) := by
  constructor
  · intro hc htc hmode
    unfold stageS1
    rw [if_pos (by simp [hc, List.isEmpty_iff, htc]), if_pos hmode]
    exact ⟨rfl, rfl, rfl, rfl⟩
  · intro hd
    unfold stageS1
    rcases hd with hm | ht
    · split
      · rw [if_neg (by simp [hm])]
      · rfl
    · rw [if_neg (by simp [ht])]

/-- A concrete S1 situation for the C3 witness: empty content with one
tool call, in `auto` mode and in `default` mode. -/
def c3Payload : Request := { model := "m", messages := [⟨"user", "q"⟩], stream := false }

def c3St : PipeSt :=
  ⟨"", { message := { content := some "", tool_calls := ["call_1"] } }, [c3Payload]⟩

def c3Oracle : Oracle := fun _ _ => { message := { content := some "Final" } }

/-- C3 witness: in `auto` mode S1 issues exactly the default-mode retry;
in `default` mode it issues nothing. -/
theorem scheduler_c3_witness :
    (stageS1 c3Oracle c3Payload "auto" c3St).log
      = [c3Payload, { c3Payload with params := some "default" }]
    ∧ (stageS1 c3Oracle c3Payload "default" c3St).log = [c3Payload] := by
  have h1 := (scheduler_c3_s1_retry c3Oracle c3Payload "auto" c3St).1
    rfl (by decide) (by decide)
  have h2 := (scheduler_c3_s1_retry c3Oracle c3Payload "default" c3St).2 (Or.inl rfl)
  exact ⟨by rw [h1.2.1]; decide, by rw [h2]; rfl⟩

/-! ### C4 -/

/-- The C4 counterexample content: a JSON object that CONTAINS the key
`tool`, but with a null value. -/
def c4Content : String := "\x7b\"tool\": null\x7d"

def c4St : PipeSt := ⟨c4Content, {}, []⟩

def c4Oracle : Oracle := fun _ _ => { message := { content := some "done" } }

/-- C4 counterexample: the trimmed content parses as a JSON object
containing a `tool` key and `action_tools` is non-empty, yet S2 issues
no continuation call, because the code requires `parsed.get("tool") or
parsed.get("tool_calls")` to be TRUTHY, and `null` is falsy. -/
theorem scheduler_c4_counterexample :
    (match parseJson (pyStrip c4Content) with
     | some (Json.obj kvs) => jsonHasKey kvs "tool"
     | _ => false) = true
    ∧ strStartsWith (pyStrip c4Content) "\x7b" = true
    ∧ (stageS2 c4Oracle "m" [⟨"user", "q"⟩] ["notes_manager"] c4St).log = [] :=
  ⟨rfl, rfl, rfl⟩

/-- C4 amended: if the assistant content after S1, trimmed, starts with
a brace and parses as a JSON object whose `tool` or `tool_calls` member
is TRUTHY (present with a non-null, non-empty, non-false, non-zero
value), and `action_tools` is non-empty, S2 issues exactly one
continuation call — the original messages, the assistant content as an
assistant turn, and the literal user instruction, with
`params.function_calling = "default"` and `tool_ids = action_tools` —
and replaces the response and assistant content if and only if the
continuation content is non-empty. -/
theorem scheduler_c4_amended (oracle : Oracle) (model_id : String)
    (messages : List ChatMsg) (action_tools : List String) (st : PipeSt)
    (kvs : List (String × Json))
    (hstart : strStartsWith (pyStrip st.content) "\x7b" = true)
    (hparse : parseJson (pyStrip st.content) = some (Json.obj kvs))
    (htruthy : (jsonGetTruthy kvs "tool" || jsonGetTruthy kvs "tool_calls") = true)
    (htools : action_tools ≠ []) :
    (stageS2 oracle model_id messages action_tools st).log
        = st.log ++ [s2ContinuationRequest model_id messages action_tools st.content]
    ∧ (s2ContinuationRequest model_id messages action_tools st.content).messages
        = messages ++ [⟨"assistant", st.content⟩, ⟨"user", s2ContinuationText⟩]
    ∧ (s2ContinuationRequest model_id messages action_tools st.content).params
        = some "default"
    ∧ (s2ContinuationRequest model_id messages action_tools st.content).tool_ids
        = some action_tools
    ∧ (extractAssistantContent
          (oracle st.log.length
            (s2ContinuationRequest model_id messages action_tools st.content)).message ≠ "" →
        (stageS2 oracle model_id messages action_tools st).content
            = extractAssistantContent
                (oracle st.log.length
                  (s2ContinuationRequest model_id messages action_tools st.content)).message
          ∧ (stageS2 oracle model_id messages action_tools st).resp
            = oracle st.log.length
                (s2ContinuationRequest model_id messages action_tools st.content))
    ∧ (extractAssistantContent
          (oracle st.log.length
            (s2ContinuationRequest model_id messages action_tools st.content)).message = "" →
        (stageS2 oracle model_id messages action_tools st).content = st.content
          ∧ (stageS2 oracle model_id messages action_tools st).resp = st.resp) := by
  have hdetect : detectRawToolRequest st.content = true := by
    unfold detectRawToolRequest
    rw [hstart, hparse]
    simpa using htruthy
  have hcond : (detectRawToolRequest st.content && !action_tools.isEmpty) = true := by
    rw [hdetect]
    simpa [List.isEmpty_iff] using htools
  refine ⟨?_, rfl, rfl, rfl, ?_, ?_⟩
  · unfold stageS2
    rw [if_pos hcond]
    split
    · rfl
    · rfl
  · intro hcc
    unfold stageS2
    rw [if_pos hcond]
    split
    · exact ⟨rfl, rfl⟩
    · rename_i hin
      exact absurd hcc hin
  · intro hcc
    unfold stageS2
    rw [if_pos hcond]
    split
    · rename_i hin
      exact absurd hcc hin
    · exact ⟨rfl, rfl⟩

/-- A truthy raw tool-JSON content for the C4 witness. -/
def c4wContent : String := "\x7b\"tool\": \"notes_manager/get_note\"\x7d"

def c4wSt : PipeSt := ⟨c4wContent, {}, []⟩

/-- C4 witness: on a truthy `tool` member the continuation is issued and
its non-empty content replaces the assistant content. -/
theorem scheduler_c4_witness :
    (stageS2 c4Oracle "m" [⟨"user", "q"⟩] ["notes_manager"] c4wSt).log
      = [s2ContinuationRequest "m" [⟨"user", "q"⟩] ["notes_manager"] c4wContent]
    ∧ (stageS2 c4Oracle "m" [⟨"user", "q"⟩] ["notes_manager"] c4wSt).content = "done" := by
  have h := scheduler_c4_amended c4Oracle "m" [⟨"user", "q"⟩] ["notes_manager"] c4wSt
    [("tool", Json.str "notes_manager/get_note")] rfl rfl rfl (by decide)
  refine ⟨by rw [h.1]; rfl, ?_⟩
  have h5 := h.2.2.2.2.1 (by decide)
  rw [h5.1]
  rfl

/-! ### C8 -/

/-- Requests appended by S1 carry the initial payload's `tool_ids`. -/
theorem stageS1_log_tools (oracle : Oracle) (payload : Request) (mode : String)
    (st : PipeSt) :
    ∀ r ∈ (stageS1 oracle payload mode st).log,
      r ∈ st.log ∨ r.tool_ids = payload.tool_ids := by
  unfold stageS1
  split
  · split
    · intro r hr
      replace hr : r ∈ st.log ++ [s1RetryRequest payload] := hr
      rw [List.mem_append] at hr
      rcases hr with hr | hr
      · exact Or.inl hr
      · rw [List.mem_singleton] at hr
        subst hr
        exact Or.inr rfl
    · intro r hr
      exact Or.inl hr
  · intro r hr
    exact Or.inl hr

/-- Requests appended by S2 carry exactly the action tools. -/
theorem stageS2_log_tools (oracle : Oracle) (model_id : String)
    (messages : List ChatMsg) (action_tools : List String) (st : PipeSt) :
    ∀ r ∈ (stageS2 oracle model_id messages action_tools st).log,
      r ∈ st.log ∨ r.tool_ids = some action_tools := by
  unfold stageS2
  split
  · split <;>
    · intro r hr
      replace hr : r ∈ st.log
          ++ [s2ContinuationRequest model_id messages action_tools st.content] := hr
      rw [List.mem_append] at hr
      rcases hr with hr | hr
      · exact Or.inl hr
      · rw [List.mem_singleton] at hr
        subst hr
        exact Or.inr rfl
  · intro r hr
    exact Or.inl hr

/-- Requests appended by the S3 continuation carry exactly the action
tools. -/
theorem stageS3cont_log_tools (oracle : Oracle) (model_id : String)
    (messages : List ChatMsg) (action_tools : List String) (st : PipeSt) :
    ∀ r ∈ (stageS3cont oracle model_id messages action_tools st).log,
      r ∈ st.log ∨ r.tool_ids = some action_tools := by
  unfold stageS3cont
  split
  · split <;>
    · intro r hr
      replace hr : r ∈ st.log
          ++ [s3ForcedRequest model_id messages action_tools st.resp.sources] := hr
      rw [List.mem_append] at hr
      rcases hr with hr | hr
      · exact Or.inl hr
      · rw [List.mem_singleton] at hr
        subst hr
        exact Or.inr rfl
  · intro r hr
    exact Or.inl hr

/-- S3 does not change the request log beyond its continuation. -/
theorem stageS3_log_tools (oracle : Oracle) (model_id : String)
    (messages : List ChatMsg) (action_tools : List String) (st : PipeSt) :
    ∀ r ∈ (stageS3 oracle model_id messages action_tools st).log,
      r ∈ st.log ∨ r.tool_ids = some action_tools := by
  unfold stageS3
  split
  · exact stageS3cont_log_tools oracle model_id messages action_tools st
  · exact stageS3cont_log_tools oracle model_id messages action_tools st

/-- Requests appended by the notes follow-up loop carry exactly the
action tools. -/
theorem notesLoop_log_tools (oracle : Oracle) (model_id : String)
    (messages : List ChatMsg) (action_tools : List String) :
    ∀ (fuel : Nat) (st : PipeSt),
      ∀ r ∈ (notesFollowupLoop oracle model_id messages action_tools fuel st).log,
        r ∈ st.log ∨ r.tool_ids = some action_tools := by
  intro fuel
  induction fuel with
  | zero => intro st r hr; exact Or.inl hr
  | succ fuel ih =>
    intro st
    unfold notesFollowupLoop
    split
    · intro r hr; exact Or.inl hr
    split
    · intro r hr; exact Or.inl hr
    split
    · intro r hr; exact Or.inl hr
    split
    · intro r hr
      rcases ih _ r hr with hmem | htools
      · replace hmem : r ∈ st.log
            ++ [s4FollowupRequest model_id messages action_tools st.content
                  st.resp.sources] := hmem
        rw [List.mem_append] at hmem
        rcases hmem with hmem | hmem
        · exact Or.inl hmem
        · rw [List.mem_singleton] at hmem
          subst hmem
          exact Or.inr rfl
      · exact Or.inr htools
    · intro r hr
      replace hr : r ∈ st.log
          ++ [s4FollowupRequest model_id messages action_tools st.content
                st.resp.sources] := hr
      rw [List.mem_append] at hr
      rcases hr with hr | hr
      · exact Or.inl hr
      · rw [List.mem_singleton] at hr
        subst hr
        exact Or.inr rfl

/-- Every request the pipeline issues carries either no `tool_ids` key
or exactly the run's action tools. -/
theorem pipeline_log_tools (cfg : PipeConfig) (oracle : Oracle) :
    ∀ r ∈ (execute_scheduled_prompt_core cfg oracle).log,
      r.tool_ids = none ∨ r.tool_ids = some (cfgActionTools cfg) := by
  intro r hr
  have hpayload : (initialPayload cfg).tool_ids = none
      ∨ (initialPayload cfg).tool_ids = some (cfgActionTools cfg) := by
    show (if optListTruthy (cfgToolIds cfg) && !(cfgActionTools cfg).isEmpty then
        some (cfgActionTools cfg) else none) = none
      ∨ (if optListTruthy (cfgToolIds cfg) && !(cfgActionTools cfg).isEmpty then
        some (cfgActionTools cfg) else none) = some (cfgActionTools cfg)
    split
    · exact Or.inr rfl
    · exact Or.inl rfl
  unfold execute_scheduled_prompt_core at hr
  rcases notesLoop_log_tools oracle cfg.model_id (cfgMessages cfg) (cfgActionTools cfg)
      2 _ r hr with hr | hr
  · rcases stageS3_log_tools oracle cfg.model_id (cfgMessages cfg) (cfgActionTools cfg)
        _ r hr with hr | hr
    · rcases stageS2_log_tools oracle cfg.model_id (cfgMessages cfg) (cfgActionTools cfg)
          _ r hr with hr | hr
      · rcases stageS1_log_tools oracle (initialPayload cfg)
            (normalizeMode cfg.function_calling_mode) _ r hr with hr | hr
        · replace hr : r ∈ [initialPayload cfg] := hr
          rw [List.mem_singleton] at hr
          subst hr
          exact hpayload
        · rw [hr]
          exact hpayload
      · exact Or.inr hr
    · exact Or.inr hr
  · exact Or.inr hr

/-- C8: `action_tools` is the resolved tool-ID list with exactly the
IDs whose lowercase form contains `prompt_scheduler` removed, the
remaining order preserved (a sublist); consequently no request the
pipeline issues ever carries a `tool_ids` entry containing
`prompt_scheduler` case-insensitively. -/
theorem scheduler_c8_action_tools :
    (∀ ids : List String, (computeActionTools ids).Sublist ids)
    ∧ (∀ (ids : List String) (t : String), t ∈ computeActionTools ids →
        strContains (pyLower t) "prompt_scheduler" = false)
    ∧ (∀ (ids : List String) (t : String), t ∈ ids →
        strContains (pyLower t) "prompt_scheduler" = false →
        t ∈ computeActionTools ids)
    ∧ (∀ (cfg : PipeConfig) (oracle : Oracle),
        ∀ r ∈ (execute_scheduled_prompt_core cfg oracle).log,
          ∀ t ∈ r.tool_ids.getD [],
            strContains (pyLower t) "prompt_scheduler" = false) := by
  have hmem : ∀ (ids : List String) (t : String), t ∈ computeActionTools ids →
      strContains (pyLower t) "prompt_scheduler" = false := by
    intro ids t ht
    rw [computeActionTools, List.mem_filter] at ht
    simpa using ht.2
  refine ⟨fun ids => List.filter_sublist ids, hmem, ?_, ?_⟩
  · intro ids t ht hps
    rw [computeActionTools, List.mem_filter]
    exact ⟨ht, by simp [hps]⟩
  · intro cfg oracle r hr t ht
    rcases pipeline_log_tools cfg oracle r hr with hnone | hsome
    · rw [hnone] at ht
      simp at ht
    · rw [hsome] at ht
      exact hmem _ _ ht

/-- Concrete configuration for the C8 witness. -/
def c8Cfg : PipeConfig :=
  { prompt := "What is on my todo list?", model_id := "model-1",
    prompt_tool_ids := some ["prompt_scheduler", "notes_manager"] }

set_option maxRecDepth 16384 in
/-- C8 witness: the theorem applied to a concrete run configured with
`prompt_scheduler` and `notes_manager` — the surviving tool is clean,
and a concrete request of the concrete run is clean. -/
theorem scheduler_c8_witness :
    "notes_manager" ∈ computeActionTools ["prompt_scheduler", "notes_manager"]
    ∧ strContains (pyLower "notes_manager") "prompt_scheduler" = false
    ∧ ∀ t ∈ (initialPayload c8Cfg).tool_ids.getD [],
        strContains (pyLower t) "prompt_scheduler" = false := by
  have h := scheduler_c8_action_tools
  have hm : "notes_manager" ∈ computeActionTools ["prompt_scheduler", "notes_manager"] :=
    h.2.2.1 _ _ (by decide) (by decide)
  refine ⟨hm, h.2.1 _ _ hm, ?_⟩
  intro t ht
  refine h.2.2.2 c8Cfg c2wOracle (initialPayload c8Cfg) ?_ t ht
  rw [show (execute_scheduled_prompt_core c8Cfg c2wOracle).log
      = [initialPayload c8Cfg] from rfl]
  exact List.mem_singleton.mpr rfl

end Scheduler
